import Mathlib

/-!
Verification of the Meeting Assistant engine layer.

This file shallowly embeds the parts of the repository that the checked
properties are about: the speech-to-text engines
(`src/stt/whisper_engine.py`, `src/stt/whispercpp_engine.py`), the
summarization engines (`src/summarization/qwen_engine.py`,
`src/summarization/ollama_engine.py`), the participant parsing of the web
interface (`web_app.py`) and of the CLI (`cli.py`), and — modelled from the
specification, since `src/stt/manager.py` / `src/summarization/manager.py`
are not part of the sources — the generic engine manager.

Conventions of the embedding:
- Python dicts returned to callers become Lean structures whose fields are
  `Option`-valued: `none` means the key is absent from the dict.
- Calls into the outside world (a loaded model, an HTTP service, a
  subprocess) are passed in as explicit outcome arguments; an uncaught
  Python exception is an `Except.error` result.
- Numeric values that Python holds as floats are represented as rationals;
  no proved property depends on float rounding.
- Python string operations are implemented structurally over `List Char`
  (`pyStrip`, `pySplit`, ...), so that closed statements evaluate inside
  the kernel.
-/

namespace MeetingAssistant

/-! ## Python string primitives -/

/-- Python `str.strip()`: remove leading and trailing whitespace. -/
def pyStrip (s : String) : String :=
  String.mk (((s.data.dropWhile Char.isWhitespace).reverse.dropWhile
    Char.isWhitespace).reverse)

/-- Splitting a character list on a separator character; like Python's
`str.split(sep)` this yields `[[]]` for the empty input and keeps empty
groups between adjacent separators. -/
def splitOnChar (sep : Char) : List Char → List (List Char)
  | [] => [[]]
  | c :: rest =>
      match splitOnChar sep rest with
      | [] => if c = sep then [[], []] else [[c]]
      | g :: gs => if c = sep then [] :: g :: gs else (c :: g) :: gs

/-- Python `s.split(sep)` for a one-character separator (the only kind the
sources use: `','`, `'\n'`, `'.'`). -/
def pySplit (sep : Char) (s : String) : List String :=
  (splitOnChar sep s.data).map String.mk

/-- Python `sep.join(parts)`. -/
def pyJoin (sep : String) (parts : List String) : String :=
  String.mk (List.intercalate sep.data (parts.map String.data))

/-- Python `s.startswith(c)` for a one-character prefix (the only kind the
sources use). -/
def pyStartsWith (c : Char) (s : String) : Bool :=
  s.data.head? = some c

/-- Python `len(s)`: the number of code points. -/
def pyLen (s : String) : Nat :=
  s.data.length

/-! ## Participant parsing (web_app.py `start_meeting`, cli.py `record`) -/

/-- Participant parsing of the web interface (`web_app.py`,
`/api/meeting/start`): behind `if participants:` it evaluates
`[p.strip() for p in participants.split(',') if p.strip()]`; the form field
defaults to `None`, and an empty string is falsy, both giving `[]`. -/
def parse_participants_web (participants : Option String) : List String :=
  match participants with
  | none => []
  | some s =>
      if s = "" then []
      else ((pySplit ',' s).map pyStrip).filter (fun p => p ≠ "")

/-- Participant parsing of the CLI (`cli.py`, `record`): behind
`if participants:` it evaluates `[p.strip() for p in participants.split(',')]`
— the same split and strip as the web interface but with no emptiness
filter on the stripped entries. -/
def parse_participants_cli (participants : Option String) : List String :=
  match participants with
  | none => []
  | some s =>
      if s = "" then []
      else (pySplit ',' s).map pyStrip

/-! ## Bullet-item extraction (shared shape of the four `extract_*` loops) -/

/-- One character of the class in `re.sub(r'^[-•*\d\.]\s*', '', line)`. -/
def isMarkerChar (c : Char) : Bool :=
  c = '-' || c = '•' || c = '*' || c.isDigit || c = '.'

/-- Whether `re.match(r'^\d+\.', line)` succeeds: one or more digits followed
by a literal dot, at the start of the line. -/
def startsWithNumberedMarker (s : String) : Bool :=
  let ds := s.data.takeWhile Char.isDigit
  ds ≠ [] && (s.data.drop ds.length).head? = some '.'

/-- The guard of the extraction loops on an already-stripped line:
`line and (line.startswith('-') or line.startswith('•') or
line.startswith('*') or re.match(r'^\d+\.', line))`. -/
def is_bullet_line (line : String) : Bool :=
  line ≠ "" &&
    (pyStartsWith '-' line || pyStartsWith '•' line || pyStartsWith '*' line ||
      startsWithNumberedMarker line)

/-- `re.sub(r'^[-•*\d\.]\s*', '', line)`: the regex consumes exactly ONE
leading character of the class `[-•*\d.]` plus the whitespace run after it
(so of a numbered marker such as `1.` only the digit is consumed). -/
def strip_bullet_marker (line : String) : String :=
  match line.data with
  | [] => line
  | c :: rest =>
      if isMarkerChar c then String.mk (rest.dropWhile Char.isWhitespace)
      else line

/-- Body shared verbatim by `extract_action_items` / `extract_key_points` of
both summarization engines: split the response on newlines, strip each line,
keep the bullet/numbered lines, clean each with the one-character
marker-stripping substitution, keep the items passing the engine's check
(`keep`), and slice to the first `limit` items. -/
def parse_bullet_items (keep : String → Bool) (limit : Nat) (response : String) :
    List String :=
  (((((pySplit '\n' response).map pyStrip).filter is_bullet_line).map
    strip_bullet_marker).filter keep).take limit

/-! ## Summarization result dicts -/

/-- A dict returned by `summarize` of either summarization engine; `none`
means the key is absent. The sources use the keys `summary`, `success`,
`fallback` and `error`. -/
structure SummarizeResult where
  summary : Option String
  success : Option Bool
  fallback : Option Bool
  error : Option String
  deriving DecidableEq, Repr

/-! ## QwenEngine (src/summarization/qwen_engine.py) -/

/-- State of a `QwenEngine` visible to the embedded operations. The loaded
model / tokenizer / pipeline objects live behind the generation-outcome
arguments; the flag `is_initialized` comes from the engine base class and
starts out `false`. -/
structure QwenEngine where
  is_initialized : Bool
  model_name : String
  max_tokens : Nat
  deriving DecidableEq, Repr

/-- `QwenEngine._generate_response`: raises `RuntimeError` when the engine is
not initialized; otherwise runs the text-generation pipeline — `gen` is its
outcome, `.ok` carrying the generated continuation of the prompt and
`.error` any exception — strips the result, and maps any caught exception to
the empty string. -/
def QwenEngine.generate_response (e : QwenEngine) (gen : Except String String) :
    Except String String :=
  if e.is_initialized then
    match gen with
    | .ok response => .ok (pyStrip response)
    | .error _ => .ok ""
  else
    .error "QwenEngine not initialized"

/-- `QwenEngine._extractive_summary`: split on `'.'`, strip, drop empty
sentences; with at most three sentences re-join them all, otherwise join the
first, middle and last sentence behind a header. -/
def QwenEngine.extractive_summary (text : String) : String :=
  let sentences := ((pySplit '.' text).map pyStrip).filter (fun s => s ≠ "")
  if sentences.length ≤ 3 then
    pyJoin ". " sentences ++ "."
  else
    "**Summary (Key Points):**\n\n" ++
      pyJoin ". " [sentences.headD "", (sentences.get? (sentences.length / 2)).getD "",
        sentences.getLastD ""] ++ "."

/-- `QwenEngine.summarize`: generate; when the generated summary is truthy and
shorter than 90% of the input it is returned with `success: True`; otherwise
(unusable generation, or an exception — e.g. the `RuntimeError` of an
uninitialized engine) the extractive fallback is returned, still with
`success: True` and marked `fallback: True`. Python compares
`len(summary) < len(text) * 0.9` with a float product; the embedding uses the
exact rational comparison `10·len(summary) < 9·len(text)`. -/
def QwenEngine.summarize (e : QwenEngine) (text : String)
    (gen : Except String String) : SummarizeResult :=
  match e.generate_response gen with
  | .ok summary =>
      if summary ≠ "" ∧ 10 * pyLen summary < 9 * pyLen text then
        { summary := some summary, success := some true,
          fallback := none, error := none }
      else
        { summary := some (QwenEngine.extractive_summary text),
          success := some true, fallback := some true, error := none }
  | .error msg =>
      { summary := some (QwenEngine.extractive_summary text),
        success := some true, fallback := some true, error := some msg }

/-- `QwenEngine.extract_action_items`: parse bullet items out of the generated
response, keeping cleaned items that are truthy (`if action_item:`), sliced to
the first 10; any exception (e.g. the uninitialized `RuntimeError`) is caught
and yields `[]`. -/
def QwenEngine.extract_action_items (e : QwenEngine)
    (gen : Except String String) : List String :=
  match e.generate_response gen with
  | .ok response => parse_bullet_items (fun it => it != "") 10 response
  | .error _ => []

/-- `QwenEngine.extract_key_points`: same loop as `extract_action_items` but
sliced to the first 8 items. -/
def QwenEngine.extract_key_points (e : QwenEngine)
    (gen : Except String String) : List String :=
  match e.generate_response gen with
  | .ok response => parse_bullet_items (fun it => it != "") 8 response
  | .error _ => []

/-- `QwenEngine.cleanup`: deletes the pipeline/model/tokenizer and resets
`is_initialized` to `False`. -/
def QwenEngine.cleanup (e : QwenEngine) : QwenEngine :=
  { e with is_initialized := false }

/-- `QwenEngine.initialize`: loads tokenizer, model and pipeline (`load` is
the combined outcome); on success sets `is_initialized = True` and returns
`True`, on any exception returns `False` with the state untouched. -/
def QwenEngine.initialize_engine (e : QwenEngine) (load : Except String Unit) :
    Bool × QwenEngine :=
  match load with
  | .ok _ => (true, { e with is_initialized := true })
  | .error _ => (false, e)

/-! ## OllamaEngine (src/summarization/ollama_engine.py) -/

/-- State of an `OllamaEngine`. -/
structure OllamaEngine where
  is_initialized : Bool
  base_url : String
  model_name : String
  max_tokens : Nat
  deriving DecidableEq, Repr

/-- Python `a or b` over an optional integer argument (`max_tokens or
self.max_tokens`): `None` and `0` are falsy. -/
def pyOrNat (a : Option Nat) (b : Nat) : Nat :=
  match a with
  | some n => if n = 0 then b else n
  | none => b

/-- Python `a or b` over an optional string argument (`language or
self.language`): `None` and `''` are falsy. -/
def pyOrStr (a : Option String) (b : String) : String :=
  match a with
  | some s => if s = "" then b else s
  | none => b

/-- Outcome of the HTTP round trip made with the `requests` library. A
timeout raises `requests.exceptions.Timeout`, a subclass of
`RequestException`, as are connection and JSON-decoding errors; `completed`
carries the status code and the parsed `response` field of the JSON body
(`result.get('response', '')`). -/
inductive OllamaHttpOutcome where
  | timedOut
  | requestError (msg : String)
  | completed (status : Nat) (responseField : String)
  deriving DecidableEq, Repr

/-- The call `requests.post(f"{base_url}/api/generate", json=payload,
timeout=120)` of `OllamaEngine._generate_response`, as the record of what is
sent: the payload fields and the timeout (in seconds) supplied at the call
site. -/
structure OllamaRequest where
  url : String
  model : String
  prompt : String
  stream : Bool
  num_predict : Nat
  timeout : Option Nat
  deriving DecidableEq, Repr

/-- The request `OllamaEngine._generate_response` issues for a prompt. -/
def OllamaEngine.generate_request (e : OllamaEngine) (prompt : String)
    (max_tokens : Option Nat) : OllamaRequest :=
  { url := e.base_url ++ "/api/generate"
    model := e.model_name
    prompt := prompt
    stream := false
    num_predict := pyOrNat max_tokens e.max_tokens
    timeout := some 120 }

/-- `OllamaEngine._generate_response`: raises `RuntimeError` when not
initialized; otherwise posts to `/api/generate` and returns the stripped
`response` field on HTTP 200, and `''` on a non-200 status or any caught
`RequestException` (timeouts included). -/
def OllamaEngine.generate_response (e : OllamaEngine)
    (outcome : OllamaHttpOutcome) : Except String String :=
  if e.is_initialized then
    .ok (match outcome with
      | .timedOut => ""
      | .requestError _ => ""
      | .completed status responseField =>
          if status = 200 then pyStrip responseField else "")
  else
    .error "OllamaEngine not initialized"

/-- `OllamaEngine.summarize`: returns the generated text with
`success: True`; if `_generate_response` raises (only the uninitialized
`RuntimeError` escapes it), returns `success: False` with an `error` key. -/
def OllamaEngine.summarize (e : OllamaEngine) (_text : String)
    (outcome : OllamaHttpOutcome) : SummarizeResult :=
  match e.generate_response outcome with
  | .ok summary =>
      { summary := some summary, success := some true,
        fallback := none, error := none }
  | .error msg =>
      { summary := some "", success := some false,
        fallback := none, error := some msg }

/-- `OllamaEngine.extract_action_items`: the bullet-item loop with the check
`if action_item and len(action_item) > 5`, sliced to the first 10 items;
exceptions yield `[]`. -/
def OllamaEngine.extract_action_items (e : OllamaEngine)
    (outcome : OllamaHttpOutcome) : List String :=
  match e.generate_response outcome with
  | .ok response =>
      parse_bullet_items (fun it => it != "" && decide (5 < pyLen it)) 10 response
  | .error _ => []

/-- `OllamaEngine.extract_key_points`: same loop sliced to the first 8. -/
def OllamaEngine.extract_key_points (e : OllamaEngine)
    (outcome : OllamaHttpOutcome) : List String :=
  match e.generate_response outcome with
  | .ok response =>
      parse_bullet_items (fun it => it != "" && decide (5 < pyLen it)) 8 response
  | .error _ => []

/-- `OllamaEngine.cleanup`: nothing to release for the API-based engine;
resets `is_initialized` to `False`. -/
def OllamaEngine.cleanup (e : OllamaEngine) : OllamaEngine :=
  { e with is_initialized := false }

/-- Outcome of `requests.get(f"{base_url}/api/tags", timeout=5)` in
`OllamaEngine.initialize`: status code and the names of the models listed in
the JSON body. -/
inductive OllamaTagsOutcome where
  | requestError (msg : String)
  | completed (status : Nat) (model_names : List String)
  deriving DecidableEq, Repr

/-- `OllamaEngine.initialize`: on HTTP 200 with `model_name` among the listed
models, sets `is_initialized = True` and returns `True`; on a missing model,
a non-200 status, or a caught `RequestException` returns `False` with the
state untouched. -/
def OllamaEngine.initialize_engine (e : OllamaEngine) (tags : OllamaTagsOutcome) :
    Bool × OllamaEngine :=
  match tags with
  | .completed status model_names =>
      if status = 200 then
        if e.model_name ∈ model_names then
          (true, { e with is_initialized := true })
        else (false, e)
      else (false, e)
  | .requestError _ => (false, e)

/-! ## STT result dicts -/

/-- One entry of the `segments` list a `WhisperEngine.transcribe` result dict
carries: `{'start', 'end', 'text', 'confidence'}` (`end` is renamed `stop`
here; a Lean field cannot be called `end`). -/
structure WhisperOutSegment where
  start : ℚ
  stop : ℚ
  text : String
  confidence : ℚ
  deriving DecidableEq, Repr

/-- A dict returned by `transcribe` of either STT engine; `none` means the
key is absent. Between them the sources use the keys `text`, `language`,
`segments`, `confidence`, `success` and `error`. -/
structure STTResult where
  text : Option String
  language : Option String
  segments : Option (List WhisperOutSegment)
  confidence : Option ℚ
  success : Option Bool
  error : Option String
  deriving DecidableEq, Repr

/-! ## WhisperEngine (src/stt/whisper_engine.py) -/

/-- State of a `WhisperEngine`; the loaded model lives behind the
transcription-outcome arguments. -/
structure WhisperEngine where
  is_initialized : Bool
  language : String
  deriving DecidableEq, Repr

/-- One entry of the raw `segments` list `whisper`'s `model.transcribe`
returns (field `end` renamed `stop`); `avg_logprob` defaults to `0.0` via
`segment.get('avg_logprob', 0.0)`, so it is total here. -/
structure WhisperSegment where
  start : ℚ
  stop : ℚ
  text : String
  avg_logprob : ℚ
  deriving DecidableEq, Repr

/-- The raw dict `whisper`'s `model.transcribe` returns: `text` is always
present (indexed directly), `language` and `segments` are read with
`.get` / `in`-checks and may be absent. -/
structure WhisperRawResult where
  text : String
  language : Option String
  segments : Option (List WhisperSegment)
  deriving DecidableEq, Repr

/-- `WhisperEngine.transcribe`: raises `RuntimeError` when not initialized.
Otherwise (the audio normalization only conditions the model call, carried
here by the `model` outcome argument) a successful model call is formatted
into `{'text', 'language', 'segments', 'confidence'}` — `language` defaulting
to `'unknown'`, `confidence` the mean `avg_logprob` over the raw segments
with denominator at least 1 — and any exception is caught into
`{'text': '', 'error', 'confidence': 0.0, 'segments': []}`, with no
`language` key. -/
def WhisperEngine.transcribe (e : WhisperEngine)
    (model : Except String WhisperRawResult) : Except String STTResult :=
  if e.is_initialized then
    match model with
    | .ok raw =>
        let rawSegs := raw.segments.getD []
        .ok { text := some (pyStrip raw.text)
              language := some (raw.language.getD "unknown")
              segments := some (rawSegs.map fun s =>
                { start := s.start, stop := s.stop, text := pyStrip s.text,
                  confidence := s.avg_logprob })
              confidence := some ((rawSegs.map WhisperSegment.avg_logprob).sum /
                (max rawSegs.length 1 : ℚ))
              success := none
              error := none }
    | .error msg =>
        .ok { text := some "", language := none, segments := some [],
              confidence := some 0, success := none, error := some msg }
  else
    .error "WhisperEngine not initialized"

/-- `WhisperEngine.transcribe_stream`: `None` when the engine is not
initialized, when the chunk holds fewer than 16000 samples, when the model
call raises, or when the transcribed text strips to empty; otherwise the
stripped text. -/
def WhisperEngine.transcribe_stream (e : WhisperEngine) (audio_chunk : List Int)
    (model : Except String WhisperRawResult) : Option String :=
  if !e.is_initialized then none
  else if audio_chunk.length < 16000 then none
  else
    match model with
    | .error _ => none
    | .ok raw => if pyStrip raw.text = "" then none else some (pyStrip raw.text)

/-- `WhisperEngine.cleanup`: drops the model and resets `is_initialized` to
`False`. -/
def WhisperEngine.cleanup (e : WhisperEngine) : WhisperEngine :=
  { e with is_initialized := false }

/-- `WhisperEngine.initialize`: loads the model (`load` is the outcome, after
the device auto-detection); on success sets `is_initialized = True` and
returns `True`, on any exception returns `False` with the state untouched. -/
def WhisperEngine.initialize_engine (e : WhisperEngine) (load : Except String Unit) :
    Bool × WhisperEngine :=
  match load with
  | .ok _ => (true, { e with is_initialized := true })
  | .error _ => (false, e)

/-! ## WhisperCppEngine (src/stt/whispercpp_engine.py) -/

/-- State of a `WhisperCppEngine`; `whisper_cpp_dir` is the string of
`Path.home() / "whisper.cpp"`. -/
structure WhisperCppEngine where
  is_initialized : Bool
  whisper_cpp_dir : String
  model_size : String
  language : String
  threads : Nat
  translate : Bool
  deriving DecidableEq, Repr

/-- Outcome of a `subprocess.run(..., timeout=...)` call: it completes with a
return code and captured stdout/stderr, raises `TimeoutExpired`, or raises
some other exception. -/
inductive SubprocessOutcome where
  | completed (returncode : Int) (stdout : String) (stderr : String)
  | timeoutExpired
  | raised (msg : String)
  deriving DecidableEq, Repr

/-- An invocation handed to `subprocess.run`: the argument list and the
timeout (in seconds) supplied at the call site. -/
structure RunSpec where
  cmd : List String
  timeout : Option Nat
  deriving DecidableEq, Repr

/-- The `subprocess.run` invocation `WhisperCppEngine.transcribe` builds
(lines 117-144 of the source): binary and model under `whisper_cpp_dir`,
`-f` the (format-ensured) audio path, `-t` the thread count, text output
without timestamps, `-l` the language when truthy and not `'auto'`
(`lang = language or self.language`), `--translate` when configured — run
with `timeout=300`. -/
def WhisperCppEngine.transcribe_cmd (e : WhisperCppEngine) (audio_path : String)
    (language : Option String) : RunSpec :=
  let lang := pyOrStr language e.language
  { cmd :=
      [e.whisper_cpp_dir ++ "/main",
       "-m", e.whisper_cpp_dir ++ "/models/ggml-" ++ e.model_size ++ ".bin",
       "-f", audio_path,
       "-t", toString e.threads,
       "--output-txt", "--no-timestamps"] ++
      (if lang ≠ "" ∧ lang ≠ "auto" then ["-l", lang] else []) ++
      (if e.translate then ["--translate"] else [])
    timeout := some 300 }

/-- The stdout post-processing of `WhisperCppEngine.transcribe`: strip the
output, split into lines, keep lines that strip to something and do not start
with `'['` (progress/info lines), and join their stripped forms with single
spaces. -/
def WhisperCppEngine.transcribe_output (stdout : String) : String :=
  let lines := pySplit '\n' (pyStrip stdout)
  pyJoin " " ((lines.filter fun l =>
    pyStrip l ≠ "" && !(pyStartsWith '[' l)).map pyStrip)

/-- `WhisperCppEngine.transcribe`: an uninitialized engine returns
`{'text': '', 'success': False, 'error': 'Engine not initialized'}` (no
exception is raised). Otherwise the whisper.cpp subprocess runs with
`timeout=300`; a non-zero return code gives `success: False` with the
captured stderr, success gives the post-processed stdout with
`success: True` and the language, `TimeoutExpired` is caught into
`{'text': '', 'success': False, 'error': 'Transcription timeout'}`, and any
other exception into `success: False` with its message. -/
def WhisperCppEngine.transcribe (e : WhisperCppEngine) (language : Option String)
    (run : SubprocessOutcome) : STTResult :=
  if !e.is_initialized then
    { text := some "", success := some false,
      error := some "Engine not initialized",
      language := none, segments := none, confidence := none }
  else
    match run with
    | .completed returncode stdout stderr =>
        if returncode ≠ 0 then
          { text := some "", success := some false, error := some stderr,
            language := none, segments := none, confidence := none }
        else
          { text := some (WhisperCppEngine.transcribe_output stdout)
            success := some true
            language := some (pyOrStr language e.language)
            segments := none, confidence := none, error := none }
    | .timeoutExpired =>
        { text := some "", success := some false,
          error := some "Transcription timeout",
          language := none, segments := none, confidence := none }
    | .raised msg =>
        { text := some "", success := some false, error := some msg,
          language := none, segments := none, confidence := none }

/-- The dict `WhisperCppEngine.transcribe_stream` returns; `partial_flag`
stands for the source dict's `partial` key. -/
structure WhisperCppStreamResult where
  text : String
  partial_flag : Bool
  success : Bool
  deriving DecidableEq, Repr

/-- `WhisperCppEngine.transcribe_stream`: streaming is not implemented for
whisper.cpp; for every chunk the method logs a warning and returns the fixed
dict `{'text': '', 'partial': True, 'success': True}`. -/
def WhisperCppEngine.transcribe_stream (_e : WhisperCppEngine)
    (_audio_chunk : List Nat) : WhisperCppStreamResult :=
  { text := "", partial_flag := true, success := true }

/-- What `WhisperCppEngine.initialize` probes: existence of the whisper.cpp
directory, binary and model file, and the outcome of the binary test
`subprocess.run([binary, "-h"], ..., timeout=5)`. -/
structure WhisperCppInitEnv where
  dir_exists : Bool
  binary_exists : Bool
  model_exists : Bool
  test_run : SubprocessOutcome
  deriving DecidableEq, Repr

/-- `WhisperCppEngine.initialize`: fails (returning `False`, state untouched)
when the directory, binary or model is missing, when the binary test raises
(caught by the broad `except`) or exits non-zero; otherwise sets
`is_initialized = True` and returns `True`. -/
def WhisperCppEngine.initialize_engine (e : WhisperCppEngine)
    (env : WhisperCppInitEnv) : Bool × WhisperCppEngine :=
  if !env.dir_exists then (false, e)
  else if !env.binary_exists then (false, e)
  else if !env.model_exists then (false, e)
  else
    match env.test_run with
    | .completed returncode _ _ =>
        if returncode ≠ 0 then (false, e)
        else (true, { e with is_initialized := true })
    | .timeoutExpired => (false, e)
    | .raised _ => (false, e)

/-- `WhisperCppEngine.cleanup`: resets `is_initialized` to `False`. -/
def WhisperCppEngine.cleanup (e : WhisperCppEngine) : WhisperCppEngine :=
  { e with is_initialized := false }

/-! ## EngineManager

Modelled from the spec: `src/stt/manager.py` and
`src/summarization/manager.py` (class `STTManager` / `SummarizationManager`,
the generic EngineManager of spec §4.2) are not among the sources — only
their callers and tests are. The model follows §4.2's words: a registry of
named factories, at most one current `(name, instance)`; `switchEngine(name)`
constructs a new instance via the factory and calls its `initialize()`; only
on success it runs the old instance's `cleanup()`, commits the new instance
as current and returns true; on failure it discards the half-constructed
instance, leaves the old instance (if any) intact and current, and returns
false. `init_ok` stands for the environment deciding whether a fresh
instance of a given name initializes successfully. -/

/-- A live engine instance as the manager sees it: its registry name and its
`initialized` flag. -/
structure EngineInstance where
  name : String
  initialized : Bool
  deriving DecidableEq, Repr

/-- Modelled from the spec: the manager state of §4.2 — the registered
factory names, the environment's verdict on initializing a fresh instance of
each name, and the current instance slot. -/
structure EngineManager where
  registry : List String
  init_ok : String → Bool
  current : Option EngineInstance

/-- Modelled from the spec: `switchEngine(name)` of §4.2 (the transactional
swap). A name outside the registry cannot be constructed and fails; a
constructed instance whose `initialize()` fails is discarded with the
manager unchanged; on success the old instance is cleaned up and the new one
committed. -/
def EngineManager.switch_engine (m : EngineManager) (name : String) :
    Bool × EngineManager :=
  if name ∈ m.registry then
    if m.init_ok name then
      (true, { m with current := some { name := name, initialized := true } })
    else
      (false, m)
  else
    (false, m)

/-- Modelled from the spec: `currentEngineName() -> name|none`. -/
def EngineManager.current_engine_name (m : EngineManager) : Option String :=
  m.current.map EngineInstance.name

/-- Modelled from the spec: the `initialized` field of `status()`; `false` in
the "no engine" state. -/
def EngineManager.status_initialized (m : EngineManager) : Bool :=
  match m.current with
  | some inst => inst.initialized
  | none => false

/-! ## Properties -/

/-- C1: `switchEngine(name)` is transactional. If the freshly constructed
instance's `initialize()` fails (or the name is not registered), the call
returns `false` and the manager — in particular `currentEngineName()` and
`status().initialized`, with the old instance intact and current — is
exactly as before the call; if `initialize()` succeeds, the call returns
`true` and both observables reflect the new engine. -/
theorem C1_switch_engine_transactional (m : EngineManager) (name : String) :
    ((m.switch_engine name).1 = false →
        (m.switch_engine name).2 = m ∧
        (m.switch_engine name).2.current_engine_name = m.current_engine_name ∧
        (m.switch_engine name).2.status_initialized = m.status_initialized) ∧
    ((m.switch_engine name).1 = true →
        (m.switch_engine name).2.current_engine_name = some name ∧
        (m.switch_engine name).2.status_initialized = true) := by
  unfold EngineManager.switch_engine
  by_cases h1 : name ∈ m.registry <;> by_cases h2 : m.init_ok name <;>
    simp [h1, h2, EngineManager.current_engine_name,
      EngineManager.status_initialized]

/-- C2: invoking a processing operation on an engine that is not initialized
yields the engine-not-initialized failure — `WhisperEngine.transcribe`,
`OllamaEngine._generate_response` and `QwenEngine._generate_response` raise
`RuntimeError`, `WhisperCppEngine.transcribe` returns the
`'Engine not initialized'` error dict — and performs no processing: the
result is a constant, independent of the model/service outcome, so no
implicit default engine is consulted. -/
theorem C2_uninitialized_process_fails :
    (∀ (e : WhisperEngine) (model : Except String WhisperRawResult),
        e.is_initialized = false →
        e.transcribe model = .error "WhisperEngine not initialized") ∧
    (∀ (e : WhisperCppEngine) (language : Option String)
        (run : SubprocessOutcome),
        e.is_initialized = false →
        e.transcribe language run =
          { text := some "", success := some false,
            error := some "Engine not initialized",
            language := none, segments := none, confidence := none }) ∧
    (∀ (e : OllamaEngine) (outcome : OllamaHttpOutcome),
        e.is_initialized = false →
        e.generate_response outcome = .error "OllamaEngine not initialized") ∧
    (∀ (e : QwenEngine) (gen : Except String String),
        e.is_initialized = false →
        e.generate_response gen = .error "QwenEngine not initialized") := by
  refine ⟨?_, ?_, ?_, ?_⟩
  · intro e model h
    unfold WhisperEngine.transcribe
    simp [h]
  · intro e language run h
    unfold WhisperCppEngine.transcribe
    simp [h]
  · intro e outcome h
    unfold OllamaEngine.generate_response
    simp [h]
  · intro e gen h
    unfold QwenEngine.generate_response
    simp [h]

/-- C3: the external-service-backed engine calls are issued with a timeout
supplied at the call site — `requests.post(..., timeout=120)` in
`OllamaEngine._generate_response`, `subprocess.run(..., timeout=300)` in
`WhisperCppEngine.transcribe` — and an elapsed timeout is caught and turned
into an error result (`''`, the failure sentinel, for Ollama; the
`'Transcription timeout'` dict with `success: False` for whisper.cpp)
instead of hanging or letting the exception escape the call. -/
theorem C3_external_calls_have_timeouts :
    (∀ (e : OllamaEngine) (prompt : String) (max_tokens : Option Nat),
        (e.generate_request prompt max_tokens).timeout = some 120) ∧
    (∀ e : OllamaEngine, e.is_initialized = true →
        e.generate_response .timedOut = .ok "") ∧
    (∀ (e : WhisperCppEngine) (audio_path : String) (language : Option String),
        (e.transcribe_cmd audio_path language).timeout = some 300) ∧
    (∀ (e : WhisperCppEngine) (language : Option String),
        e.is_initialized = true →
        e.transcribe language .timeoutExpired =
          { text := some "", success := some false,
            error := some "Transcription timeout",
            language := none, segments := none, confidence := none }) := by
  refine ⟨fun e p mt => rfl, ?_, fun e a l => rfl, ?_⟩
  · intro e h
    unfold OllamaEngine.generate_response
    simp [h]
  · intro e language h
    unfold WhisperCppEngine.transcribe
    simp [h]

/-- C4 counterexample: the claim says every STT engine's `transcribe_stream`
returns a text string or null, but `WhisperCppEngine.transcribe_stream`
returns a dict — here evaluated on a concrete engine and chunk to the record
`{'text': '', 'partial': True, 'success': True}`, which is neither a string
nor `None`. -/
theorem C4_counterexample_whispercpp_stream_returns_dict :
    WhisperCppEngine.transcribe_stream
      { is_initialized := true, whisper_cpp_dir := "/home/user/whisper.cpp",
        model_size := "base", language := "auto", threads := 4,
        translate := false }
      [] = { text := "", partial_flag := true, success := true } := rfl

/-- C4 amended: `WhisperEngine.transcribe_stream` returns a text string or
null for every audio chunk (null when uninitialized, on a short chunk, on a
model exception or on empty stripped text; otherwise the non-empty stripped
text), while `WhisperCppEngine.transcribe_stream` ignores its chunk and
always returns the fixed dict `{'text': '', 'partial': True,
'success': True}` rather than a string or null. -/
theorem C4_amended_stream_shapes :
    (∀ (e : WhisperEngine) (audio_chunk : List Int)
        (model : Except String WhisperRawResult),
        e.transcribe_stream audio_chunk model = none ∨
        ∃ s, e.transcribe_stream audio_chunk model = some s ∧ s ≠ "") ∧
    (∀ (e : WhisperCppEngine) (audio_chunk : List Nat),
        e.transcribe_stream audio_chunk =
          { text := "", partial_flag := true, success := true }) := by
  constructor
  · intro e audio_chunk model
    unfold WhisperEngine.transcribe_stream
    by_cases h1 : e.is_initialized
    · by_cases h2 : audio_chunk.length < 16000
      · simp [h1, h2]
      · cases model with
        | error msg => simp [h1, h2]
        | ok raw =>
            by_cases h3 : pyStrip raw.text = ""
            · simp [h1, h2, h3]
            · right
              exact ⟨pyStrip raw.text, by simp [h1, h2, h3], h3⟩
    · simp [h1]
  · intro e audio_chunk
    rfl

/-- C5 counterexample: the claim says every `transcribe` result dict contains
`text`, `confidence` and `language` on success and failure paths alike, but a
successful `WhisperCppEngine.transcribe` result carries no `confidence` key,
and a failing `WhisperEngine.transcribe` result carries no `language` key. -/
theorem C5_counterexample_missing_result_keys :
    (WhisperCppEngine.transcribe
        { is_initialized := true, whisper_cpp_dir := "/home/user/whisper.cpp",
          model_size := "base", language := "auto", threads := 4,
          translate := false }
        none (.completed 0 "hello world" "")).confidence = none ∧
    (∃ r, WhisperEngine.transcribe { is_initialized := true, language := "auto" }
        (.error "boom") = .ok r ∧ r.language = none) := by
  exact ⟨rfl, ⟨_, rfl, rfl⟩⟩

/-- C5 amended: every `transcribe` result dict contains `text`.
`WhisperEngine` (which raises rather than returning a dict when
uninitialized) additionally always includes `confidence` and `segments`, and
includes `language` exactly on the success path (the failure dict carries
`error` instead); `WhisperCppEngine` always includes a `success` flag,
includes `language` exactly on its success path, and never includes
`confidence` or `segments`. -/
theorem C5_amended_transcribe_result_keys :
    (∀ (e : WhisperEngine) (model : Except String WhisperRawResult)
        (r : STTResult),
        e.transcribe model = .ok r →
        r.text.isSome ∧ r.confidence.isSome ∧ r.segments.isSome ∧
          (r.language.isSome ↔ r.error = none)) ∧
    (∀ (e : WhisperCppEngine) (language : Option String)
        (run : SubprocessOutcome),
        ((e.transcribe language run).text.isSome ∧
         (e.transcribe language run).success.isSome) ∧
        ((e.transcribe language run).confidence = none ∧
         (e.transcribe language run).segments = none) ∧
        ((e.transcribe language run).language.isSome ↔
          (e.transcribe language run).success = some true)) := by
  constructor
  · intro e model r hr
    unfold WhisperEngine.transcribe at hr
    by_cases h1 : e.is_initialized
    · simp only [h1, if_true] at hr
      cases model with
      | ok raw =>
          simp only [Except.ok.injEq] at hr
          subst hr
          simp
      | error msg =>
          simp only [Except.ok.injEq] at hr
          subst hr
          simp
    · simp [h1] at hr
  · intro e language run
    unfold WhisperCppEngine.transcribe
    by_cases h1 : e.is_initialized
    · cases run with
      | completed rc out err => by_cases h2 : rc ≠ 0 <;> simp [h1, h2]
      | timeoutExpired => simp [h1]
      | raised msg => simp [h1]
    · simp [h1]

/-- C6: `summarize` of both summarization engines returns a dict containing
both a `summary` string and a `success` flag on every path — successful
generation, unusable generation, and caught exceptions alike. -/
theorem C6_summarize_result_keys :
    (∀ (e : QwenEngine) (text : String) (gen : Except String String),
        (e.summarize text gen).summary.isSome ∧
        (e.summarize text gen).success.isSome) ∧
    (∀ (e : OllamaEngine) (text : String) (outcome : OllamaHttpOutcome),
        (e.summarize text outcome).summary.isSome ∧
        (e.summarize text outcome).success.isSome) := by
  constructor
  · intro e text gen
    unfold QwenEngine.summarize
    cases e.generate_response gen with
    | ok s =>
        by_cases hc : s ≠ "" ∧ 10 * pyLen s < 9 * pyLen text <;> simp [hc]
    | error msg => simp
  · intro e text outcome
    unfold OllamaEngine.summarize
    cases e.generate_response outcome with
    | ok s => simp
    | error msg => simp

/-- C7: for each of the four engines, starting from the post-construction
state (`is_initialized = False`), `initialize()` returns `True` exactly when
it leaves the initialized flag `True`; on failure it returns `False` with
the whole state — the flag included — untouched, and (being total here, all
source paths being wrapped in `try/except`) it never raises; `cleanup()`
always resets the flag to `False`. -/
theorem C7_initialize_and_cleanup_flag :
    ((∀ (e : WhisperEngine) (load : Except String Unit),
        e.is_initialized = false →
        ((e.initialize_engine load).1 = (e.initialize_engine load).2.is_initialized ∧
         ((e.initialize_engine load).1 = false → (e.initialize_engine load).2 = e))) ∧
     (∀ (e : WhisperCppEngine) (env : WhisperCppInitEnv),
        e.is_initialized = false →
        ((e.initialize_engine env).1 = (e.initialize_engine env).2.is_initialized ∧
         ((e.initialize_engine env).1 = false → (e.initialize_engine env).2 = e))) ∧
     (∀ (e : QwenEngine) (load : Except String Unit),
        e.is_initialized = false →
        ((e.initialize_engine load).1 = (e.initialize_engine load).2.is_initialized ∧
         ((e.initialize_engine load).1 = false → (e.initialize_engine load).2 = e))) ∧
     (∀ (e : OllamaEngine) (tags : OllamaTagsOutcome),
        e.is_initialized = false →
        ((e.initialize_engine tags).1 = (e.initialize_engine tags).2.is_initialized ∧
         ((e.initialize_engine tags).1 = false → (e.initialize_engine tags).2 = e)))) ∧
    ((∀ e : WhisperEngine, e.cleanup.is_initialized = false) ∧
     (∀ e : WhisperCppEngine, e.cleanup.is_initialized = false) ∧
     (∀ e : QwenEngine, e.cleanup.is_initialized = false) ∧
     (∀ e : OllamaEngine, e.cleanup.is_initialized = false)) := by
  refine ⟨⟨?_, ?_, ?_, ?_⟩, fun e => rfl, fun e => rfl, fun e => rfl,
    fun e => rfl⟩
  · intro e load h
    cases load with
    | ok u => simp [WhisperEngine.initialize_engine]
    | error msg => simp [WhisperEngine.initialize_engine, h]
  · intro e env h
    unfold WhisperCppEngine.initialize_engine
    by_cases h1 : env.dir_exists <;> by_cases h2 : env.binary_exists <;>
      by_cases h3 : env.model_exists <;> simp [h1, h2, h3, h]
    cases henv : env.test_run with
    | completed rc out err => by_cases hrc : rc = 0 <;> simp [hrc, h]
    | timeoutExpired => simp [h]
    | raised msg => simp [h]
  · intro e load h
    cases load with
    | ok u => simp [QwenEngine.initialize_engine]
    | error msg => simp [QwenEngine.initialize_engine, h]
  · intro e tags h
    cases tags with
    | completed status names =>
        by_cases hs : status = 200
        · by_cases hm : e.model_name ∈ names <;>
            simp [OllamaEngine.initialize_engine, hs, hm, h]
        · simp [OllamaEngine.initialize_engine, hs, h]
    | requestError msg => simp [OllamaEngine.initialize_engine, h]

/-- C8: `QwenEngine.summarize` always reports `success: True`: either the
generated summary is usable (truthy and under 90% of the input length) and
is returned unmarked, or — on an unusable generation or a raised exception —
the extractive fallback summary is substituted, marked `fallback: True`,
still with `success: True`. It never returns `success: False`. -/
theorem C8_qwen_summarize_always_succeeds (e : QwenEngine) (text : String)
    (gen : Except String String) :
    (e.summarize text gen).success = some true ∧
    (((e.summarize text gen).fallback = some true ∧
        (e.summarize text gen).summary =
          some (QwenEngine.extractive_summary text)) ∨
      ((e.summarize text gen).fallback = none ∧
        ∃ s, (e.summarize text gen).summary = some s ∧ s ≠ "" ∧
          10 * pyLen s < 9 * pyLen text)) := by
  unfold QwenEngine.summarize
  cases e.generate_response gen with
  | error msg => exact ⟨rfl, Or.inl ⟨rfl, rfl⟩⟩
  | ok s =>
      by_cases hc : s ≠ "" ∧ 10 * pyLen s < 9 * pyLen text
      · exact ⟨by simp [hc], Or.inr ⟨by simp [hc], s, by simp [hc], hc.1, hc.2⟩⟩
      · exact ⟨by simp [hc], Or.inl ⟨by simp [hc], by simp [hc]⟩⟩

/-- Soundness of the shared bullet-item loop: at most `limit` items come
back, each passes the engine's `keep` check, and each is the one-character
marker-strip of some stripped bullet/numbered line of the response. -/
theorem parse_bullet_items_sound (keep : String → Bool) (limit : Nat)
    (response : String) :
    (parse_bullet_items keep limit response).length ≤ limit ∧
    ∀ item ∈ parse_bullet_items keep limit response,
      keep item = true ∧
      ∃ line ∈ (pySplit '\n' response).map pyStrip,
        is_bullet_line line = true ∧ item = strip_bullet_marker line := by
  constructor
  · unfold parse_bullet_items
    rw [List.length_take]
    exact min_le_left _ _
  · intro item hmem
    unfold parse_bullet_items at hmem
    have h1 : item ∈ ((((pySplit '\n' response).map pyStrip).filter
        is_bullet_line).map strip_bullet_marker).filter keep :=
      List.take_subset _ _ hmem
    rw [List.mem_filter] at h1
    obtain ⟨h2, hkeep⟩ := h1
    rw [List.mem_map] at h2
    obtain ⟨line, hline, hstrip⟩ := h2
    rw [List.mem_filter] at hline
    exact ⟨hkeep, line, hline.1, hline.2, hstrip.symm⟩

/-- C9 counterexample: the claim says every returned item is a bullet or
numbered line "with its leading marker stripped", but the substitution
`re.sub(r'^[-•*\d\.]\s*', '', line)` consumes only one character of the
marker: on the generated response `"1. Buy milk"` both engines return the
item `". Buy milk"`, which still carries the rest of the numbered marker. -/
theorem C9_counterexample_marker_partially_stripped :
    QwenEngine.extract_action_items
      { is_initialized := true, model_name := "Qwen/Qwen2.5-3B-Instruct",
        max_tokens := 1000 }
      (.ok "1. Buy milk") = [". Buy milk"] ∧
    OllamaEngine.extract_action_items
      { is_initialized := true, base_url := "http://localhost:11434",
        model_name := "qwen2.5:3b", max_tokens := 1000 }
      (.completed 200 "1. Buy milk") = [". Buy milk"] := by
  constructor <;> decide

/-- C9 amended: `extract_action_items` returns at most 10 items and
`extract_key_points` at most 8, in both engines; every returned item passes
the engine's check (non-empty for Qwen, longer than 5 characters for
Ollama) and is obtained from a stripped bullet or numbered line of the
generated response by deleting exactly ONE leading marker character plus the
whitespace run after it — so a numbered marker such as `1.` is stripped only
of its first digit, the remainder staying on the item. -/
theorem C9_amended_extract_bounds_and_items :
    (∀ (e : QwenEngine) (gen : Except String String),
        (e.extract_action_items gen).length ≤ 10 ∧
        ∀ item ∈ e.extract_action_items gen, item ≠ "" ∧
          ∃ response, e.generate_response gen = .ok response ∧
            ∃ line ∈ (pySplit '\n' response).map pyStrip,
              is_bullet_line line = true ∧ item = strip_bullet_marker line) ∧
    (∀ (e : QwenEngine) (gen : Except String String),
        (e.extract_key_points gen).length ≤ 8 ∧
        ∀ item ∈ e.extract_key_points gen, item ≠ "" ∧
          ∃ response, e.generate_response gen = .ok response ∧
            ∃ line ∈ (pySplit '\n' response).map pyStrip,
              is_bullet_line line = true ∧ item = strip_bullet_marker line) ∧
    (∀ (e : OllamaEngine) (outcome : OllamaHttpOutcome),
        (e.extract_action_items outcome).length ≤ 10 ∧
        ∀ item ∈ e.extract_action_items outcome, 5 < pyLen item ∧
          ∃ response, e.generate_response outcome = .ok response ∧
            ∃ line ∈ (pySplit '\n' response).map pyStrip,
              is_bullet_line line = true ∧ item = strip_bullet_marker line) ∧
    (∀ (e : OllamaEngine) (outcome : OllamaHttpOutcome),
        (e.extract_key_points outcome).length ≤ 8 ∧
        ∀ item ∈ e.extract_key_points outcome, 5 < pyLen item ∧
          ∃ response, e.generate_response outcome = .ok response ∧
            ∃ line ∈ (pySplit '\n' response).map pyStrip,
              is_bullet_line line = true ∧ item = strip_bullet_marker line) := by
  refine ⟨?_, ?_, ?_, ?_⟩
  · intro e gen
    unfold QwenEngine.extract_action_items
    cases hg : e.generate_response gen with
    | error msg => simp
    | ok response =>
        obtain ⟨hlen, hmem⟩ := parse_bullet_items_sound
          (fun it => it != "") 10 response
        refine ⟨hlen, fun item hitem => ?_⟩
        obtain ⟨hkeep, hline⟩ := hmem item hitem
        exact ⟨by simpa using hkeep, response, rfl, hline⟩
  · intro e gen
    unfold QwenEngine.extract_key_points
    cases hg : e.generate_response gen with
    | error msg => simp
    | ok response =>
        obtain ⟨hlen, hmem⟩ := parse_bullet_items_sound
          (fun it => it != "") 8 response
        refine ⟨hlen, fun item hitem => ?_⟩
        obtain ⟨hkeep, hline⟩ := hmem item hitem
        exact ⟨by simpa using hkeep, response, rfl, hline⟩
  · intro e outcome
    unfold OllamaEngine.extract_action_items
    cases hg : e.generate_response outcome with
    | error msg => simp
    | ok response =>
        obtain ⟨hlen, hmem⟩ := parse_bullet_items_sound
          (fun it => it != "" && decide (5 < pyLen it)) 10 response
        refine ⟨hlen, fun item hitem => ?_⟩
        obtain ⟨hkeep, hline⟩ := hmem item hitem
        have : 5 < pyLen item := by
          simp only [Bool.and_eq_true, decide_eq_true_eq] at hkeep
          exact hkeep.2
        exact ⟨this, response, rfl, hline⟩
  · intro e outcome
    unfold OllamaEngine.extract_key_points
    cases hg : e.generate_response outcome with
    | error msg => simp
    | ok response =>
        obtain ⟨hlen, hmem⟩ := parse_bullet_items_sound
          (fun it => it != "" && decide (5 < pyLen it)) 8 response
        refine ⟨hlen, fun item hitem => ?_⟩
        obtain ⟨hkeep, hline⟩ := hmem item hitem
        have : 5 < pyLen item := by
          simp only [Bool.and_eq_true, decide_eq_true_eq] at hkeep
          exact hkeep.2
        exact ⟨this, response, rfl, hline⟩

/-- C10 counterexample: the claim says the web interface and the CLI parse a
comma-separated participants string into the same list, both dropping
entries that are empty after stripping; on `"Alice, ,Bob"` the web interface
yields `['Alice', 'Bob']` but the CLI yields `['Alice', '', 'Bob']` — the
CLI has no emptiness filter. -/
theorem C10_counterexample_participants_disagree :
    parse_participants_web (some "Alice, ,Bob") ≠
      parse_participants_cli (some "Alice, ,Bob") := by decide

/-- C10 amended: both the web interface and the CLI split the participants
string on commas and strip surrounding whitespace, but only the web
interface drops entries that are empty after stripping, while the CLI keeps
them: the web list always equals the CLI list with empty entries removed. -/
theorem C10_amended_web_is_cli_filtered (participants : Option String) :
    parse_participants_web participants =
      (parse_participants_cli participants).filter (fun p => p ≠ "") := by
  cases participants with
  | none => rfl
  | some s =>
      by_cases h : s = "" <;>
        simp [parse_participants_web, parse_participants_cli, h]

end MeetingAssistant
